import Mathlib

/-!
# Verification of the spectrogram rendering engine

A shallow embedding, in Lean 4, of the core of the `spectrogram` repository:
the spectral-estimation parameter handling, the decibel normalization
pipeline, the polar projection geometry, the title styling rules, the output
encoder's format dispatch, and the parameter grid with its filename
synthesizer.  Every definition is translated from the Python source
(`src/modules/spectrogram_visualizer.py`, `src/config/parameters.py`); the
theorems settle the specification's claims about that code.

Modelling conventions:
* Python floats are modelled as `ℚ` where the code only adds, subtracts,
  multiplies, divides and compares, and as `ℝ` where transcendental
  functions (`log10`, `π`) appear.
* A NumPy float division whose denominator is zero produces `NaN`; since
  `NaN` is not a rational number, such an entry is modelled as `none` in an
  `Option ℚ`.
* A Python function that may `raise` is modelled as returning
  `Except String α`, the error string mirroring the exception message.
-/

namespace Spectrogram

/-- The `SpectrogramConfig` dataclass of
`src/modules/spectrogram_visualizer.py`, field for field, with the same
defaults.  Floats are `ℚ`, ints are `ℤ`, `max_freq : int | None` is
`Option ℤ`. -/
structure SpectrogramConfig where
  projection : String := "linear"
  cmap : String := "magma"
  figsize : ℚ × ℚ := (11, 5)
  dpi : ℤ := 300
  norm_gamma : ℚ := 4
  max_freq : Option ℤ := some 18000
  nperseg : ℤ := 256
  noverlap : ℤ := 128
  polar_inner_radius : ℚ := 1 / 20
  normalize_db : Bool := false
  background : String := "transparent"
  title : String := "Spectrogram"
  title_font : String := "Helvetica"
  title_size : ℤ := 20
  title_color : String := "#000004"
  title_weight : String := "bold"
  title_position : String := "top"
  time_tick_interval : ℤ := 15
  show_axes : String := "minimal"
  axes_color : String := "#CCCCCC"
  tick_color : String := "#CCCCCC"
  tick_size : ℤ := 8
  output_format : String := "jpg"
  quality : ℤ := 95
  deriving Repr, DecidableEq

/-! ## Spectral estimation (`scipy.signal.spectrogram` call of
`_create_polar_spectrogram`, lines 158-164) -/

/-- Outcome of the spectral estimate's parameter handling: either the early
return on an empty signal, or an STFT that will run with the (possibly
clipped) segment length and the given overlap. -/
inductive SpectralResult where
  | emptySignal : SpectralResult
  | stft (nperseg : ℤ) (noverlap : ℤ) : SpectralResult
  deriving Repr, DecidableEq

/-- Parameter handling of the `scipy.signal.spectrogram` call at
`_create_polar_spectrogram` (the repository performs no validation of its
own; the semantics of the library call decide the claim).  In scipy's
`_spectral_helper`: an empty signal returns empty arrays at once;
`_triage_segments` raises `ValueError` when `nperseg < 1`, and when
`nperseg` exceeds the signal length it emits a warning and clips `nperseg`
to the signal length; afterwards `noverlap >= nperseg` (the clipped value)
raises `ValueError`.  `n` is the signal length. -/
def scipySpectrogramParams (n : ℕ) (nperseg noverlap : ℤ) :
    Except String SpectralResult :=
  if n = 0 then .ok .emptySignal
  else if nperseg < 1 then .error "nperseg must be a positive integer"
  else if min nperseg (n : ℤ) ≤ noverlap then
    .error "noverlap must be less than nperseg."
  else .ok (.stft (min nperseg (n : ℤ)) noverlap)

/-! ## Decibel conversion and normalization
(`_create_polar_spectrogram`, lines 166-173) -/

/-- `10 * np.log10(Sxx + 1e-10)` — power-to-decibel conversion with the
fixed epsilon floor, line 167. -/
noncomputable def db (p : ℝ) : ℝ := 10 * Real.logb 10 (p + 1e-10)

/-- Minimum of a non-empty list, `numpy.ndarray.min` on the flattened
matrix; on the empty matrix numpy raises, modelled by the junk value 0
(never used under the claims' non-emptiness hypotheses). -/
def listMin : List ℚ → ℚ
  | [] => 0
  | x :: xs => xs.foldl min x

/-- Maximum of a non-empty list, `numpy.ndarray.max`. -/
def listMax : List ℚ → ℚ
  | [] => 0
  | x :: xs => xs.foldl max x

/-- All entries of a matrix (row-major flattening). -/
def matEntries {α : Type} (m : List (List α)) : List α :=
  m.foldr (fun r acc => r ++ acc) []

/-- `(Sxx_db - Sxx_db.min()) / (Sxx_db.max() - Sxx_db.min())`, line 171:
elementwise min-max rescaling.  When `max - min = 0` the NumPy division is
`0.0 / 0.0 = NaN` (with an invalid-value warning), modelled as `none`. -/
def normalizeDb (m : List (List ℚ)) : List (List (Option ℚ)) :=
  let mn := listMin (matEntries m)
  let mx := listMax (matEntries m)
  m.map (fun row => row.map (fun x =>
    if mx - mn = 0 then none else some ((x - mn) / (mx - mn))))

/-! ## Polar projection geometry
(`_create_polar_spectrogram`, lines 181-188) -/

/-- `numpy.linspace start stop num` with the default `endpoint=True`:
`num` evenly spaced points from `start` to `stop`, both included
(for `num = 1`, just `start`). -/
def linspace {α : Type} [Field α] (start stop : α) (num : ℕ) : List α :=
  if num = 1 then [start]
  else (List.range num).map
    (fun i : ℕ => start + (i : α) * (stop - start) / ((num : α) - 1))

/-- Radial boundary edges of the polar mesh, line 185-187:
`np.linspace(polar_inner_radius, 1.0, n_freqbins + 1)`.  The repository
performs no validation of the inner radius (the `Except` wrapper records
that no `raise` occurs on this path for any input value). -/
def polarRadialEdges (innerRadius : ℚ) (nFreqBins : ℕ) :
    Except String (List ℚ) :=
  .ok (linspace innerRadius 1 (nFreqBins + 1))

/-! ## Title styling (`_apply_styling`, lines 247-269) -/

/-- The `fig.text` call the styling stage issues for the title: horizontal
position, vertical position, vertical alignment, and the text. -/
structure TitleDirective where
  x : ℚ
  y : ℚ
  va : String
  text : String
  deriving Repr, DecidableEq

/-- Title placement of `_apply_styling`, lines 247-269: nothing is drawn
when the title is empty (Python truthiness of `self.config.title`);
otherwise `"top"` anchors at `y = 0.98, va = "top"` and every other
`title_position` value falls into the `else:  # bottom` branch,
`y = 0.02, va = "bottom"`.  The function contains no `raise`; the
`Except` result records that no error path exists. -/
def applyTitleStyling (cfg : SpectrogramConfig) :
    Except String (Option TitleDirective) :=
  if cfg.title = "" then .ok none
  else if cfg.title_position = "top" then
    .ok (some ⟨1 / 2, 98 / 100, "top", cfg.title⟩)
  else
    .ok (some ⟨1 / 2, 2 / 100, "bottom", cfg.title⟩)

/-! ## Linear projection (`_create_linear_spectrogram`, lines 101-143) -/

/-- Color normalization handed to matplotlib: a `PowerNorm(gamma=...)`
object, or the fixed value range `vmin=0, vmax=1`. -/
inductive ColorNorm where
  | powerNorm (gamma : ℚ) : ColorNorm
  | fixedRange (vmin vmax : ℚ) : ColorNorm
  deriving Repr, DecidableEq

/-- Everything `_create_linear_spectrogram` passes to matplotlib that
determines its output: the figure facecolor, and the `ax.specgram` call's
data, sample rate, colormap, normalization, `NFFT`, `noverlap`, plus the
`set_ylim` ceiling.  (`figsize`/`dpi` are carried by the figure but play no
role in the claims about this path.) -/
structure LinearRenderArgs where
  facecolor : String
  signal : List ℚ
  fs : ℤ
  cmap : String
  norm : ColorNorm
  nfft : ℤ
  noverlap : ℤ
  ylim : Option ℤ
  deriving Repr, DecidableEq

/-- `_create_linear_spectrogram`, lines 101-143: the figure facecolor from
`background`, then `ax.specgram(audio_data, Fs=sample_rate, cmap=cmap,
norm=PowerNorm(gamma=norm_gamma), NFFT=nperseg, noverlap=noverlap)`, then
`set_ylim(0, max_freq)` when `max_freq` is set. -/
def createLinearSpectrogram (cfg : SpectrogramConfig) (audio : List ℚ)
    (sampleRate : ℤ) : LinearRenderArgs :=
  { facecolor := if cfg.background = "transparent" then "none" else cfg.background
    signal := audio
    fs := sampleRate
    cmap := cfg.cmap
    norm := .powerNorm cfg.norm_gamma
    nfft := cfg.nperseg
    noverlap := cfg.noverlap
    ylim := cfg.max_freq }

/-! ## Output encoder (`_save_figure`, lines 373-417) -/

/-- The three encodings `_save_figure` can produce. -/
inductive SaveFormat where
  | jpg : SaveFormat
  | png : SaveFormat
  | svg : SaveFormat
  deriving Repr, DecidableEq

/-- What a successful `_save_figure` writes: the chosen format, the
transparency flag, and (for JPEG only) the quality. -/
structure SavedFigure where
  format : SaveFormat
  transparent : Bool
  quality : Option ℤ
  deriving Repr, DecidableEq

/-- Python `str.lower()`, modelled character by character (`Char.toLower`
agrees with Python on the ASCII letters the dispatch compares against). -/
def pyLower (s : String) : String := String.mk (s.data.map Char.toLower)

/-- `_save_figure`, lines 373-417: dispatch on
`self.config.output_format.lower()`; `"jpg"`, `"png"` and `"svg"` save in
the corresponding format, anything else raises
`ValueError(f"Invalid output format: ...")` before any `savefig` call, so
nothing is written on the error path. -/
def saveFigure (cfg : SpectrogramConfig) : Except String SavedFigure :=
  if pyLower cfg.output_format = "jpg" then
    .ok ⟨.jpg, cfg.background = "transparent", some cfg.quality⟩
  else if pyLower cfg.output_format = "png" then
    .ok ⟨.png, cfg.background = "transparent", none⟩
  else if pyLower cfg.output_format = "svg" then
    .ok ⟨.svg, cfg.background = "transparent", none⟩
  else
    .error ("Invalid output format: " ++ cfg.output_format
      ++ ". Must be jpg, png, or svg.")

/-- A string is a casing of a (lowercase) word when lowering its characters
yields that word: e.g. `"JpG"`, `"JPG"` and `"jpg"` are the casings of
`"jpg"`. -/
def isCasingOf (s t : String) : Prop := pyLower s = t

instance (s t : String) : Decidable (isCasingOf s t) := by
  unfold isCasingOf
  infer_instance

/-! ## Parameter grid (`src/config/parameters.py`, lines 10-71) -/

/-- `itertools.product(*values)`: all tuples taking one element from each
list, the rightmost list varying fastest. -/
def productLists {V : Type} : List (List V) → List (List V)
  | [] => [[]]
  | l :: ls => l.flatMap (fun v => (productLists ls).map (fun c => v :: c))

/-- Python dict assignment `params[key] = value` on an association list:
overwrite the existing binding, else append a new one. -/
def updateParam {V : Type} (params : List (String × V)) (k : String) (v : V) :
    List (String × V) :=
  if params.any (fun q => q.1 = k) then
    params.map (fun q => if q.1 = k then (k, v) else q)
  else params ++ [(k, v)]

/-- The `ParameterGrid` class: a parameter dictionary (ordered association
list of name → candidate values) and an optional base configuration
(`asdict` of a `SpectrogramConfig`, modelled as an association list). -/
structure ParameterGrid (V : Type) where
  parameter_dict : List (String × List V)
  base_config : Option (List (String × V))

/-- `ParameterGrid.generate_combinations`, lines 30-59: start from the base
configuration's fields (empty if no base), and for each tuple of
`itertools.product` over the value lists, override the varied keys. -/
def ParameterGrid.generate_combinations {V : Type} (g : ParameterGrid V) :
    List (List (String × V)) :=
  let base_params := g.base_config.getD []
  (productLists (g.parameter_dict.map Prod.snd)).map
    (fun combo =>
      (List.zip (g.parameter_dict.map Prod.fst) combo).foldl
        (fun ps kv => updateParam ps kv.1 kv.2) base_params)

/-- `ParameterGrid.count`, lines 61-71: the running product of the value
list lengths, computed without materializing combinations. -/
def ParameterGrid.count {V : Type} (g : ParameterGrid V) : ℕ :=
  g.parameter_dict.foldl (fun acc kv => acc * kv.2.length) 1

/-! ## Filename synthesizer (`create_filename`, `src/config/parameters.py`,
lines 74-128) -/

/-- The parameter dictionary handed to `create_filename`: each field is
`none` when the key is absent (`params.get` returns `None`).  Numeric
values are `ℤ`/`ℚ` as in the config. -/
structure FilenameParams where
  cmap : Option String := none
  projection : Option String := none
  figsize : Option (ℤ × ℤ) := none
  norm_gamma : Option ℚ := none
  dpi : Option ℤ := none
  output_format : Option String := none
  polar_inner_radius : Option ℚ := none
  nperseg : Option ℤ := none
  max_freq : Option ℤ := none
  title : Option String := none
  title_font : Option String := none
  deriving Repr, DecidableEq

/-- `title_font.replace(" ", "")` / `title.replace(" ", "")`: drop every
space character. -/
def stripSpaces (s : String) : String := String.mk (s.data.filter (fun c => c ≠ ' '))

/-- `create_filename`, lines 74-128: base tokens from `cmap`, `projection`,
`figsize`, `norm_gamma`, `dpi` (with the documented fallback defaults for
missing keys); then `_hole{v}` only when the projection is `"polar"` and
`polar_inner_radius` is present and differs from `0.05`; `_seg{v}` when
`nperseg` is present and differs from `256`; `_freq{v}` when `max_freq` is
present and differs from `18000`; then the space-stripped font and the
space-stripped, 20-character-capped title when present; finally the format
extension. -/
def create_filename (p : FilenameParams) : String :=
  let cmap := p.cmap.getD "default"
  let projection := p.projection.getD "linear"
  let figsize := p.figsize.getD (11, 5)
  let gamma := p.norm_gamma.getD 4
  let dpi := p.dpi.getD 300
  let output_format := p.output_format.getD "jpg"
  let figsizeStr := toString figsize.1 ++ "x" ++ toString figsize.2
  let filename := "spectrogram_" ++ cmap ++ "_" ++ projection ++ "_"
    ++ figsizeStr ++ "_gamma" ++ toString gamma ++ "_dpi" ++ toString dpi
  let filename :=
    match p.polar_inner_radius with
    | some v =>
        if projection = "polar" ∧ v ≠ 1 / 20 then
          filename ++ "_hole" ++ toString v
        else filename
    | none => filename
  let filename :=
    match p.nperseg with
    | some v => if v ≠ 256 then filename ++ "_seg" ++ toString v else filename
    | none => filename
  let filename :=
    match p.max_freq with
    | some v => if v ≠ 18000 then filename ++ "_freq" ++ toString v else filename
    | none => filename
  let filename :=
    match p.title_font with
    | some f => filename ++ "_" ++ stripSpaces f
    | none => filename
  let filename :=
    match p.title with
    | some t => filename ++ "_" ++ (stripSpaces t).take 20
    | none => filename
  filename ++ "." ++ output_format

/-! ## Helper lemmas -/

theorem foldl_min_mem (x : ℚ) (xs : List ℚ) : xs.foldl min x ∈ x :: xs := by
  induction xs generalizing x with
  | nil => simp
  | cons y ys ih =>
      simp only [List.foldl_cons]
      rcases List.mem_cons.1 (ih (min x y)) with h | h
      · rcases min_choice x y with h2 | h2 <;> rw [h, h2] <;> simp
      · simp [h]

theorem foldl_min_le (x : ℚ) (xs : List ℚ) :
    ∀ y ∈ x :: xs, xs.foldl min x ≤ y := by
  induction xs generalizing x with
  | nil => simp
  | cons z zs ih =>
      intro y hy
      simp only [List.foldl_cons]
      rcases List.mem_cons.1 hy with rfl | hy2
      · exact le_trans (ih _ _ (List.mem_cons_self _ _)) (min_le_left _ _)
      · rcases List.mem_cons.1 hy2 with rfl | hy3
        · exact le_trans (ih _ _ (List.mem_cons_self _ _)) (min_le_right _ _)
        · exact ih _ _ (List.mem_cons_of_mem _ hy3)

theorem foldl_max_mem (x : ℚ) (xs : List ℚ) : xs.foldl max x ∈ x :: xs := by
  induction xs generalizing x with
  | nil => simp
  | cons y ys ih =>
      simp only [List.foldl_cons]
      rcases List.mem_cons.1 (ih (max x y)) with h | h
      · rcases max_choice x y with h2 | h2 <;> rw [h, h2] <;> simp
      · simp [h]

theorem le_foldl_max (x : ℚ) (xs : List ℚ) :
    ∀ y ∈ x :: xs, y ≤ xs.foldl max x := by
  induction xs generalizing x with
  | nil => simp
  | cons z zs ih =>
      intro y hy
      simp only [List.foldl_cons]
      rcases List.mem_cons.1 hy with rfl | hy2
      · exact le_trans (le_max_left _ _) (ih _ _ (List.mem_cons_self _ _))
      · rcases List.mem_cons.1 hy2 with rfl | hy3
        · exact le_trans (le_max_right _ _) (ih _ _ (List.mem_cons_self _ _))
        · exact ih _ _ (List.mem_cons_of_mem _ hy3)

theorem listMin_mem (l : List ℚ) (h : l ≠ []) : listMin l ∈ l := by
  cases l with
  | nil => exact absurd rfl h
  | cons x xs => exact foldl_min_mem x xs

theorem listMin_le (l : List ℚ) (y : ℚ) (hy : y ∈ l) : listMin l ≤ y := by
  cases l with
  | nil => cases hy
  | cons x xs => exact foldl_min_le x xs y hy

theorem listMax_mem (l : List ℚ) (h : l ≠ []) : listMax l ∈ l := by
  cases l with
  | nil => exact absurd rfl h
  | cons x xs => exact foldl_max_mem x xs

theorem le_listMax (l : List ℚ) (y : ℚ) (hy : y ∈ l) : y ≤ listMax l := by
  cases l with
  | nil => cases hy
  | cons x xs => exact le_foldl_max x xs y hy

theorem mem_matEntries {α : Type} (m : List (List α)) (a : α) :
    a ∈ matEntries m ↔ ∃ row ∈ m, a ∈ row := by
  induction m with
  | nil => simp [matEntries]
  | cons r rs ih =>
      simp only [matEntries, List.foldr_cons, List.mem_append, List.mem_cons]
      constructor
      · rintro (h | h)
        · exact ⟨r, Or.inl rfl, h⟩
        · obtain ⟨row, hrow, ha⟩ := ih.1 h
          exact ⟨row, Or.inr hrow, ha⟩
      · rintro ⟨row, hrow | hrow, ha⟩
        · exact Or.inl (hrow ▸ ha)
        · exact Or.inr (ih.2 ⟨row, hrow, ha⟩)

theorem matEntries_map {α β : Type} (f : α → β) (m : List (List α)) :
    matEntries (m.map (List.map f)) = (matEntries m).map f := by
  induction m with
  | nil => simp [matEntries]
  | cons r rs ih => simp [matEntries, List.map_append] at ih ⊢; rw [ih]

theorem productLists_length {V : Type} (ls : List (List V)) :
    (productLists ls).length = (ls.map List.length).prod := by
  induction ls with
  | nil => simp [productLists]
  | cons l ls ih =>
      simp only [productLists, List.map_cons, List.prod_cons]
      rw [List.length_flatMap]
      simp only [Function.comp_def, List.length_map]
      rw [List.map_const', List.sum_replicate, smul_eq_mul, ih]

theorem linspace_length {α : Type} [Field α] (a b : α) (n : ℕ) :
    (linspace a b n).length = n := by
  unfold linspace
  split
  · simp_all
  · rw [List.length_map, List.length_range]

theorem linspace_getD {α : Type} [Field α] (a b : α) (n i : ℕ)
    (h2 : 2 ≤ n) (hi : i < n) :
    (linspace a b n).getD i 0 = a + (i : α) * (b - a) / ((n : α) - 1) := by
  unfold linspace
  rw [if_neg (by omega)]
  rw [List.getD_eq_getElem?_getD, List.getElem?_map, List.getElem?_range hi]
  rfl

/-! ## Claim C1 — spectral parameter failures -/

/-- C1 counterexample: a signal of length 2 with `nperseg = 4` and
`noverlap = 0` is shorter than `nperseg`, yet the spectral estimate does
not fail: scipy clips `nperseg` to the signal length (a warning, not an
error) and the STFT proceeds, contradicting the claim that a signal
shorter than `nperseg` fails with `InvalidSpectralParameters`. -/
theorem C1_short_signal_counterexample :
    2 < 4 ∧ scipySpectrogramParams 2 4 0 = .ok (.stft 2 0) :=
  ⟨by norm_num, rfl⟩

/-- C1 (amended): for a non-empty signal of length `n`, the STFT stage
fails exactly when `nperseg < 1` or `noverlap ≥ min nperseg n` — scipy
first clips `nperseg` to the signal length (emitting a warning rather than
failing) and then rejects overlaps at least as large as the clipped window;
in particular `noverlap = nperseg` always fails. -/
theorem C1_spectral_failure_iff (n : ℕ) (nperseg noverlap : ℤ)
    (hn : 1 ≤ n) :
    ((scipySpectrogramParams n nperseg noverlap).isOk = false ↔
      nperseg < 1 ∨ min nperseg (n : ℤ) ≤ noverlap) ∧
    (scipySpectrogramParams n nperseg nperseg).isOk = false := by
  have hn0 : ¬ n = 0 := by omega
  constructor
  · unfold scipySpectrogramParams
    rw [if_neg hn0]
    split_ifs with h1 h2
    · simpa [Except.isOk, Except.toBool] using Or.inl h1
    · simpa [Except.isOk, Except.toBool, min_le_iff] using
        Or.inr ((min_le_iff).1 h2)
    · simp only [Except.isOk, Except.toBool]
      constructor
      · intro hco
        cases hco
      · intro hor
        exact absurd (hor.resolve_left h1) h2
  · unfold scipySpectrogramParams
    rw [if_neg hn0]
    split_ifs with h1 h2
    · rfl
    · rfl
    · exact absurd (min_le_left nperseg (n : ℤ)) h2

/-- C1 witness: the amended characterization instantiated at a 100-sample
signal with the default `nperseg = 256`, `noverlap = 128` (which fails
because the clipped window is 100 ≤ 128). -/
theorem C1_spectral_failure_iff_witness :
    ((scipySpectrogramParams 100 256 128).isOk = false ↔
      (256 : ℤ) < 1 ∨ min 256 (100 : ℤ) ≤ 128) ∧
    (scipySpectrogramParams 100 256 256).isOk = false :=
  C1_spectral_failure_iff 100 256 128 (by norm_num)

/-! ## Claim C3 — title position validation -/

/-- C3 counterexample: a non-empty title with the unsupported
`title_position = "middle"` does not fail with a validation error; the
styling stage silently falls into the `else:  # bottom` branch and anchors
the title at the bottom. -/
theorem C3_invalid_position_counterexample :
    applyTitleStyling { title := "Spectrogram", title_position := "middle" } =
      .ok (some ⟨1 / 2, 2 / 100, "bottom", "Spectrogram"⟩) := rfl

/-- C3 (amended): the renderer performs no validation of
`title_position`: with a non-empty title, `"top"` anchors at the top
(`y = 0.98`) and every other value — valid or not — silently anchors at
the bottom (`y = 0.02`); no configuration error is ever raised. -/
theorem C3_title_position_silent_fallback (cfg : SpectrogramConfig)
    (h : cfg.title ≠ "") :
    (cfg.title_position = "top" →
      applyTitleStyling cfg = .ok (some ⟨1 / 2, 98 / 100, "top", cfg.title⟩)) ∧
    (cfg.title_position ≠ "top" →
      applyTitleStyling cfg = .ok (some ⟨1 / 2, 2 / 100, "bottom", cfg.title⟩)) := by
  constructor
  · intro hp
    unfold applyTitleStyling
    rw [if_neg h, if_pos hp]
  · intro hp
    unfold applyTitleStyling
    rw [if_neg h, if_neg hp]

/-- C3 witness: the fallback theorem instantiated at a concrete
configuration with `title_position = "top"`. -/
theorem C3_title_position_witness :
    applyTitleStyling { title := "Spectrogram", title_position := "top" } =
      .ok (some ⟨1 / 2, 98 / 100, "top", "Spectrogram"⟩) :=
  (C3_title_position_silent_fallback
    { title := "Spectrogram", title_position := "top" } (by decide)).1 rfl

/-! ## Claim C4 — inner radius validation -/

/-- C4 counterexample: `inner_radius = 1.0` with two frequency bins does
not fail with `InvalidProjectionGeometry`; the geometry stage succeeds and
returns the degenerate radial edge list `[1, 1, 1]` (every edge at radius
1, zero-area cells). -/
theorem C4_inner_radius_one_counterexample :
    polarRadialEdges 1 2 = .ok [1, 1, 1] := by
  unfold polarRadialEdges linspace
  rw [if_neg (by norm_num)]
  norm_num [List.range_succ]

/-- C4 (amended): the code performs no inner-radius validation: for every
inner radius (including every value ≥ 1) the polar geometry stage succeeds
with the `linspace` radial edges, and at inner radius exactly 1 the
`F + 1` radial edges are all 1 — a degenerate mesh produced without
error. -/
theorem C4_no_inner_radius_validation (inner : ℚ) (F : ℕ) :
    polarRadialEdges inner F = .ok (linspace inner 1 (F + 1)) ∧
    polarRadialEdges 1 F = .ok (List.replicate (F + 1) 1) := by
  refine ⟨rfl, ?_⟩
  unfold polarRadialEdges linspace
  by_cases hF : F = 0
  · subst hF
    simp
  · rw [if_neg (by omega)]
    have hfun : (fun i : ℕ =>
        (1 : ℚ) + (i : ℚ) * ((1 : ℚ) - 1) / (((F + 1 : ℕ) : ℚ) - 1)) =
        fun _ : ℕ => (1 : ℚ) := by
      funext i
      simp
    rw [hfun, List.map_const', List.length_range]

/-! ## Claim C6 — grid count round-trip -/

/-- C6: `ParameterGrid.count` equals the length of
`ParameterGrid.generate_combinations` for every parameter dictionary, with
or without a base configuration: both are the product of the value-list
lengths. -/
theorem C6_count_eq_generate_combinations_length {V : Type}
    (g : ParameterGrid V) :
    g.count = g.generate_combinations.length := by
  unfold ParameterGrid.count ParameterGrid.generate_combinations
  rw [List.length_map, productLists_length, List.map_map,
    List.prod_eq_foldl, List.foldl_map]
  rfl

/-! ## Claim C10 — output format dispatch -/

/-- C10: the output encoder matches `output_format` case-insensitively:
every casing of `"jpg"`, `"png"`, `"svg"` is accepted and encoded in the
corresponding format, and any other string makes the save step fail with
an error naming the invalid format (the error is raised before any
`savefig` call, so nothing is written). -/
theorem C10_output_format_dispatch (cfg : SpectrogramConfig) :
    (isCasingOf cfg.output_format "jpg" →
      saveFigure cfg =
        .ok ⟨.jpg, cfg.background = "transparent", some cfg.quality⟩) ∧
    (isCasingOf cfg.output_format "png" →
      saveFigure cfg = .ok ⟨.png, cfg.background = "transparent", none⟩) ∧
    (isCasingOf cfg.output_format "svg" →
      saveFigure cfg = .ok ⟨.svg, cfg.background = "transparent", none⟩) ∧
    (¬ isCasingOf cfg.output_format "jpg" →
      ¬ isCasingOf cfg.output_format "png" →
      ¬ isCasingOf cfg.output_format "svg" →
      saveFigure cfg = .error ("Invalid output format: " ++ cfg.output_format
        ++ ". Must be jpg, png, or svg.")) := by
  refine ⟨?_, ?_, ?_, ?_⟩
  · intro h
    replace h : pyLower cfg.output_format = "jpg" := h
    unfold saveFigure
    rw [if_pos h]
  · intro h
    replace h : pyLower cfg.output_format = "png" := h
    unfold saveFigure
    rw [if_neg (fun hj => absurd (h.symm.trans hj) (by decide)), if_pos h]
  · intro h
    replace h : pyLower cfg.output_format = "svg" := h
    unfold saveFigure
    rw [if_neg (fun hj => absurd (h.symm.trans hj) (by decide)),
      if_neg (fun hp => absurd (h.symm.trans hp) (by decide)), if_pos h]
  · intro h1 h2 h3
    replace h1 : ¬ pyLower cfg.output_format = "jpg" := h1
    replace h2 : ¬ pyLower cfg.output_format = "png" := h2
    replace h3 : ¬ pyLower cfg.output_format = "svg" := h3
    unfold saveFigure
    rw [if_neg h1, if_neg h2, if_neg h3]

/-- C10 witness: the dispatch theorem instantiated at the mixed-case
format `"JpG"` (accepted as JPEG) and at the unsupported format `"bmp"`
(rejected with an error naming it). -/
theorem C10_output_format_witness :
    saveFigure { output_format := "JpG" } = .ok ⟨.jpg, true, some 95⟩ ∧
    saveFigure { output_format := "bmp" } =
      .error "Invalid output format: bmp. Must be jpg, png, or svg." :=
  ⟨(C10_output_format_dispatch { output_format := "JpG" }).1 (by decide),
   (C10_output_format_dispatch { output_format := "bmp" }).2.2.2
     (by decide) (by decide) (by decide)⟩

/-! ## Claim C2 — min-max normalization of decibel values -/

/-- C2 counterexample: on the constant matrix `[[5, 5]]` (min = max) the
rescaling divides by zero — every entry becomes NaN (modelled `none`),
not the constant 0 the claim asserts. -/
theorem C2_degenerate_counterexample :
    normalizeDb [[5, 5]] = [[none, none]] ∧
    normalizeDb [[5, 5]] ≠ [[some 0, some 0]] := by
  constructor
  · norm_num [normalizeDb, listMin, listMax, matEntries, List.replicate_succ]
  · norm_num [normalizeDb, listMin, listMax, matEntries, List.replicate_succ]
    exact fun h => Option.noConfusion h

/-- C2 (amended): in the non-degenerate case (matrix minimum strictly
below maximum) every rescaled entry is `some q` with `q ∈ [0, 1]`, at
least one entry is `some 0` and at least one is `some 1`.  The degenerate
`min = max` case is not mapped to 0 — the code divides by zero there
(see the counterexample). -/
theorem C2_normalize_db_range (m : List (List ℚ))
    (hne : matEntries m ≠ [])
    (hlt : listMin (matEntries m) < listMax (matEntries m)) :
    (∀ e ∈ matEntries (normalizeDb m), ∃ q, e = some q ∧ 0 ≤ q ∧ q ≤ 1) ∧
    some 0 ∈ matEntries (normalizeDb m) ∧
    some 1 ∈ matEntries (normalizeDb m) := by
  set mn := listMin (matEntries m) with hmn
  set mx := listMax (matEntries m) with hmx
  have hd : mx - mn ≠ 0 := sub_ne_zero.2 hlt.ne'
  have hkey : normalizeDb m =
      m.map (List.map (fun x => some ((x - mn) / (mx - mn)))) := by
    unfold normalizeDb
    rw [← hmn, ← hmx]
    simp only [if_neg hd]
  rw [hkey, matEntries_map]
  refine ⟨?_, ?_, ?_⟩
  · intro e he
    rcases List.mem_map.1 he with ⟨x, hx, rfl⟩
    refine ⟨(x - mn) / (mx - mn), rfl, ?_, ?_⟩
    · exact div_nonneg (sub_nonneg.2 (listMin_le _ _ hx))
        (le_of_lt (sub_pos.2 hlt))
    · rw [div_le_one (sub_pos.2 hlt)]
      exact sub_le_sub_right (le_listMax _ _ hx) mn
  · refine List.mem_map.2 ⟨mn, listMin_mem _ hne, ?_⟩
    simp
  · refine List.mem_map.2 ⟨mx, listMax_mem _ hne, ?_⟩
    rw [div_self hd]

/-- C2 witness: the range theorem instantiated at the decibel matrix
`[[1, 2], [3, 4]]`, whose rescaling attains both 0 and 1. -/
theorem C2_normalize_db_witness :
    listMin (matEntries [[(1 : ℚ), 2], [3, 4]]) <
      listMax (matEntries [[(1 : ℚ), 2], [3, 4]]) ∧
    some 0 ∈ matEntries (normalizeDb [[(1 : ℚ), 2], [3, 4]]) ∧
    some 1 ∈ matEntries (normalizeDb [[(1 : ℚ), 2], [3, 4]]) :=
  ⟨by norm_num [listMin, listMax, matEntries, min_def, max_def],
   (C2_normalize_db_range [[1, 2], [3, 4]]
     (by simp [matEntries])
     (by norm_num [listMin, listMax, matEntries, min_def, max_def])).2.1,
   (C2_normalize_db_range [[1, 2], [3, 4]]
     (by simp [matEntries])
     (by norm_num [listMin, listMax, matEntries, min_def, max_def])).2.2⟩

/-! ## Claim C8 — decibel conversion formula and monotonicity -/

/-- C8: power-to-decibel conversion is exactly `10 * log10 (P + 1e-10)`
with the fixed epsilon, and it is monotone: `p1 > p2 ≥ 0` implies
`db p1 ≥ db p2`. -/
theorem C8_db_formula_and_monotone :
    (∀ p : ℝ, db p = 10 * Real.logb 10 (p + 1e-10)) ∧
    (∀ p1 p2 : ℝ, p1 > p2 → p2 ≥ 0 → db p1 ≥ db p2) := by
  refine ⟨fun p => rfl, ?_⟩
  intro p1 p2 h12 h2
  unfold db
  have heps : (0 : ℝ) < 1e-10 := by norm_num
  have h0 : (0 : ℝ) < p2 + 1e-10 := by linarith
  have h1 : (0 : ℝ) < p1 + 1e-10 := by linarith
  have hlog : Real.logb 10 (p2 + 1e-10) ≤ Real.logb 10 (p1 + 1e-10) :=
    (Real.logb_le_logb (by norm_num) h0 h1).2 (by linarith)
  linarith

/-- C8 witness: monotonicity applied at the concrete powers 1 and 0. -/
theorem C8_db_monotone_witness : db 1 ≥ db 0 :=
  C8_db_formula_and_monotone.2 1 0 (by norm_num) (le_refl 0)

/-! ## Claim C9 — normalize_db has no effect on the linear path -/

/-- C9: for any two configurations identical except for the
`normalize_db` flag, with the linear projection selected, the linear
rendering path computes identical output — same spectral arguments
(`NFFT = nperseg`, `noverlap`), same data, and the same color
normalization `PowerNorm(gamma = norm_gamma)` in both runs; the min-max
rescaling logic is exclusive to the polar path. -/
theorem C9_linear_path_ignores_normalize_db (c : SpectrogramConfig)
    (b : Bool) (audio : List ℚ) (fs : ℤ) (hproj : c.projection = "linear") :
    createLinearSpectrogram { c with normalize_db := b } audio fs =
      createLinearSpectrogram c audio fs ∧
    (createLinearSpectrogram c audio fs).norm = .powerNorm c.norm_gamma := by
  cases c
  exact ⟨rfl, rfl⟩

/-- C9 witness: the independence theorem applied at the default
configuration (linear projection) with the flag flipped to `true`. -/
theorem C9_linear_path_witness :
    createLinearSpectrogram
        { ({} : SpectrogramConfig) with normalize_db := true } [1, 2] 44100 =
      createLinearSpectrogram ({} : SpectrogramConfig) [1, 2] 44100 ∧
    (createLinearSpectrogram ({} : SpectrogramConfig) [1, 2] 44100).norm =
      .powerNorm 4 :=
  C9_linear_path_ignores_normalize_db {} true [1, 2] 44100 rfl

/-! ## Claim C7 — polar mesh boundary edges -/

theorem linspace_first {α : Type} [Field α] (a b : α) (n : ℕ) (hn : 1 ≤ n) :
    (linspace a b n).getD 0 0 = a := by
  by_cases h1 : n = 1
  · subst h1
    rfl
  · rw [linspace_getD a b n 0 (by omega) (by omega)]
    simp

theorem linspace_last {α : Type} [Field α] [CharZero α] (a b : α) (n : ℕ)
    (hn : 1 ≤ n) : (linspace a b (n + 1)).getD n 0 = b := by
  rw [linspace_getD a b (n + 1) n (by omega) (by omega)]
  have hcast : ((n + 1 : ℕ) : α) - 1 = (n : α) := by
    push_cast
    ring
  rw [hcast]
  have hn0 : (n : α) ≠ 0 := Nat.cast_ne_zero.2 (by omega)
  field_simp

theorem linspace_spacing {α : Type} [Field α] [CharZero α] (a b : α)
    (n i : ℕ) (hn : 1 ≤ n) (hi : i < n) :
    (linspace a b (n + 1)).getD (i + 1) 0 -
      (linspace a b (n + 1)).getD i 0 = (b - a) / n := by
  rw [linspace_getD a b (n + 1) (i + 1) (by omega) (by omega),
    linspace_getD a b (n + 1) i (by omega) (by omega)]
  have hcast : ((n + 1 : ℕ) : α) - 1 = (n : α) := by
    push_cast
    ring
  rw [hcast]
  have hn0 : (n : α) ≠ 0 := Nat.cast_ne_zero.2 (by omega)
  push_cast
  field_simp
  ring

/-- C7: for a power matrix with `nFreqBins` rows and `nFrames` columns,
the polar mesh's angular boundary edges (`np.linspace(0, 2π, nFrames+1)`)
are `nFrames + 1` values starting at 0, ending at `2π`, with constant
spacing `2π / nFrames`; the radial boundary edges
(`np.linspace(inner, 1.0, nFreqBins+1)`) are `nFreqBins + 1` values from
`inner` to 1 with constant spacing `(1 - inner) / nFreqBins`; the mesh
therefore has `nFreqBins × nFrames` quadrilateral cells. -/
theorem C7_polar_mesh_geometry (nFrames nFreqBins i j : ℕ) (inner : ℝ)
    (hN : 1 ≤ nFrames) (hF : 1 ≤ nFreqBins)
    (hi : i < nFrames) (hj : j < nFreqBins) :
    (linspace (0 : ℝ) (2 * Real.pi) (nFrames + 1)).length = nFrames + 1 ∧
    (linspace (0 : ℝ) (2 * Real.pi) (nFrames + 1)).getD 0 0 = 0 ∧
    (linspace (0 : ℝ) (2 * Real.pi) (nFrames + 1)).getD nFrames 0 =
      2 * Real.pi ∧
    (linspace (0 : ℝ) (2 * Real.pi) (nFrames + 1)).getD (i + 1) 0 -
      (linspace (0 : ℝ) (2 * Real.pi) (nFrames + 1)).getD i 0 =
      2 * Real.pi / (nFrames : ℝ) ∧
    (linspace inner (1 : ℝ) (nFreqBins + 1)).length = nFreqBins + 1 ∧
    (linspace inner (1 : ℝ) (nFreqBins + 1)).getD 0 0 = inner ∧
    (linspace inner (1 : ℝ) (nFreqBins + 1)).getD nFreqBins 0 = 1 ∧
    (linspace inner (1 : ℝ) (nFreqBins + 1)).getD (j + 1) 0 -
      (linspace inner (1 : ℝ) (nFreqBins + 1)).getD j 0 =
      (1 - inner) / (nFreqBins : ℝ) ∧
    ((linspace inner (1 : ℝ) (nFreqBins + 1)).length - 1) *
      ((linspace (0 : ℝ) (2 * Real.pi) (nFrames + 1)).length - 1) =
      nFreqBins * nFrames := by
  refine ⟨linspace_length _ _ _, linspace_first _ _ _ (by omega),
    linspace_last 0 (2 * Real.pi) nFrames hN, ?_,
    linspace_length _ _ _, linspace_first _ _ _ (by omega),
    linspace_last inner 1 nFreqBins hF,
    linspace_spacing inner 1 nFreqBins j hF hj, ?_⟩
  · have h := linspace_spacing 0 (2 * Real.pi) nFrames i hN hi
    simpa using h
  · rw [linspace_length, linspace_length]
    simp

/-- C7 witness: the mesh theorem instantiated at 3 frames, 2 frequency
bins and inner radius 0.05. -/
theorem C7_polar_mesh_witness :
    (linspace (0 : ℝ) (2 * Real.pi) (3 + 1)).length = 3 + 1 ∧
    (linspace (0 : ℝ) (2 * Real.pi) (3 + 1)).getD 0 0 = 0 ∧
    (linspace (0 : ℝ) (2 * Real.pi) (3 + 1)).getD 3 0 = 2 * Real.pi ∧
    (linspace (0 : ℝ) (2 * Real.pi) (3 + 1)).getD (0 + 1) 0 -
      (linspace (0 : ℝ) (2 * Real.pi) (3 + 1)).getD 0 0 =
      2 * Real.pi / ((3 : ℕ) : ℝ) ∧
    (linspace (1 / 20) (1 : ℝ) (2 + 1)).length = 2 + 1 ∧
    (linspace (1 / 20) (1 : ℝ) (2 + 1)).getD 0 0 = 1 / 20 ∧
    (linspace (1 / 20) (1 : ℝ) (2 + 1)).getD 2 0 = 1 ∧
    (linspace (1 / 20) (1 : ℝ) (2 + 1)).getD (0 + 1) 0 -
      (linspace (1 / 20) (1 : ℝ) (2 + 1)).getD 0 0 =
      (1 - 1 / 20) / ((2 : ℕ) : ℝ) ∧
    ((linspace (1 / 20) (1 : ℝ) (2 + 1)).length - 1) *
      ((linspace (0 : ℝ) (2 * Real.pi) (3 + 1)).length - 1) = 2 * 3 :=
  C7_polar_mesh_geometry 3 2 0 0 (1 / 20) (by norm_num) (by norm_num)
    (by norm_num) (by norm_num)

/-! ## Claim C5 — conditional filename tokens -/

/-- C5 counterexample: with projection `"linear"` and
`polar_inner_radius = 0.2` (which differs from the baseline default
0.05), the synthesized filename carries no `hole` token — it is identical
to the filename for the default inner radius — so the `hole` token is not
appended independently of the selected projection. -/
theorem C5_projection_dependence_counterexample :
    create_filename
        { projection := some "linear", polar_inner_radius := some (1 / 5) } =
      create_filename
        { projection := some "linear", polar_inner_radius := some (1 / 20) } ∧
    (1 / 5 : ℚ) ≠ 1 / 20 := by
  constructor
  · simp [create_filename]
  · norm_num

/-- C5 (amended): the filename is the base tokens followed by the
optional tokens under their exact conditions: `hole<v>` appears exactly
when the (defaulted) projection is `"polar"` and `polar_inner_radius` is
present with a value other than 0.05; `seg<v>` exactly when `nperseg` is
present and differs from 256; `freq<v>` exactly when `max_freq` is
present and differs from 18000 — the latter two independent of the
projection, the `hole` token not. -/
theorem C5_optional_token_conditions (p : FilenameParams) :
    create_filename p =
      "spectrogram_" ++ p.cmap.getD "default" ++ "_"
        ++ p.projection.getD "linear" ++ "_"
        ++ (toString (p.figsize.getD (11, 5)).1 ++ "x"
          ++ toString (p.figsize.getD (11, 5)).2)
        ++ "_gamma" ++ toString (p.norm_gamma.getD 4)
        ++ "_dpi" ++ toString (p.dpi.getD 300)
      ++ (match p.polar_inner_radius with
          | some v =>
              if p.projection.getD "linear" = "polar" ∧ v ≠ 1 / 20 then
                "_hole" ++ toString v
              else ""
          | none => "")
      ++ (match p.nperseg with
          | some v => if v ≠ 256 then "_seg" ++ toString v else ""
          | none => "")
      ++ (match p.max_freq with
          | some v => if v ≠ 18000 then "_freq" ++ toString v else ""
          | none => "")
      ++ (match p.title_font with
          | some f => "_" ++ stripSpaces f
          | none => "")
      ++ (match p.title with
          | some t => "_" ++ (stripSpaces t).take 20
          | none => "")
      ++ "." ++ p.output_format.getD "jpg" := by
  simp only [create_filename]
  cases hpi : p.polar_inner_radius <;> cases hns : p.nperseg <;>
    cases hmf : p.max_freq <;> cases htf : p.title_font <;>
      cases ht : p.title <;>
        simp only [] <;> (try split_ifs) <;>
          simp only [String.append_assoc, String.append_empty]

end Spectrogram
